import Mathlib

/-!
# Verification of the Xclox NTP subsystem and calendar library

A shallow embedding of the xclox library (header-only C++): the big-endian
codec (`Coder`), the 64-bit NTP timestamp (`Timestamp`), the 48-byte NTP
packet (`Packet`) with its delay/offset arithmetic, the pure decision logic
of the query state machines (`QuerySingle`, `QuerySeries`, `Query`), and the
`Date`/`Time`/`DateTime` calendar types, together with theorems checking the
library's specification against this embedding.

Machine integers are modelled as `Nat`/`Int` with explicit `% 2^w` where the
C++ code wraps; `static_cast` truncations are made explicit at each site.
`std::chrono` durations are modelled by their tick counts: `Int` counts of
nanoseconds for `system_clock::duration` (the libstdc++ representation,
`period::den = 10^9`), with `duration_cast` and `operator%` rendered as
truncating division (`Int.tdiv`) and truncating remainder (`Int.tmod`),
matching C++ integer division semantics.
-/

namespace Xclox

namespace ntp

/-- A byte (`uint8_t`). -/
abbrev Byte := Fin 256

namespace Coder

/-- Source `Coder::serialize<Input>(input, output)`: for `i` in `[0, sizeof(Input))`,
`output[i] = static_cast<uint8_t>(input >> 8 * (sizeof(Input) - i - 1))`,
writing the most significant byte first. `w` stands for `sizeof(Input)`; the
`uint8_t` cast is the `% 256`, and `input >> k` is `input / 2 ^ k`. -/
def serialize (w : Nat) (v : Nat) : List Byte :=
  (List.range w).map fun i => ⟨v / 2 ^ (8 * (w - i - 1)) % 256, Nat.mod_lt _ (by norm_num)⟩

/-- Source `Coder::deserialize<Output>(input)`: `Output output { *input }`, then for
each following byte `output = static_cast<Output>(output << 8 | *(input + i))`.
`w` stands for `sizeof(Output)`; the cast truncates to `2 ^ (8 * w)` on every
iteration, and `output << 8 | byte` equals `output * 256 + byte` because the
low 8 bits of `output << 8` are zero. -/
def deserialize (w : Nat) (l : List Byte) : Nat :=
  match l with
  | [] => 0
  | b :: rest => rest.foldl (fun acc x => (acc * 256 + x.val) % 2 ^ (8 * w)) b.val

theorem serialize_length (w v : Nat) : (serialize w v).length = w := by
  simp [serialize]

theorem serialize_succ_append (w v : Nat) :
    serialize (w + 1) v =
      serialize w (v / 256) ++ [⟨v % 256, Nat.mod_lt _ (by norm_num)⟩] := by
  unfold serialize
  rw [List.range_succ, List.map_append]
  congr 1
  · refine List.map_congr_left fun i hi => ?_
    simp only [List.mem_range] at hi
    apply Fin.ext
    show v / 2 ^ (8 * (w + 1 - i - 1)) % 256 = v / 256 / 2 ^ (8 * (w - i - 1)) % 256
    rw [Nat.div_div_eq_div_mul]
    have h1 : 8 * (w + 1 - i - 1) = 8 * (w - i - 1) + 8 := by omega
    rw [h1, pow_add]
    norm_num [mul_comm]
  · simp

theorem digit_split (w v : Nat) :
    (v / 256 % 2 ^ (8 * w)) * 256 + v % 256 = v % 2 ^ (8 * (w + 1)) := by
  have h1 : (2 : Nat) ^ (8 * (w + 1)) = 256 * 2 ^ (8 * w) := by
    rw [show 8 * (w + 1) = 8 + 8 * w by ring, pow_add]; norm_num
  rw [h1, ← Nat.mod_mul_right_div_self]
  have h2 : v % 256 = v % (256 * 2 ^ (8 * w)) % 256 :=
    (Nat.mod_mod_of_dvd v ⟨2 ^ (8 * w), rfl⟩).symm
  rw [h2, mul_comm (v % (256 * 2 ^ (8 * w)) / 256) 256, Nat.div_add_mod]

theorem foldl_serialize (M : Nat) (w : Nat) :
    ∀ (a v : Nat), a * 2 ^ (8 * w) + v % 2 ^ (8 * w) < M →
      (serialize w v).foldl (fun acc x => (acc * 256 + x.val) % M) a
        = a * 2 ^ (8 * w) + v % 2 ^ (8 * w) := by
  induction w with
  | zero => intro a v h; simp [serialize, Nat.mod_one]
  | succ w ih =>
    intro a v h
    have hA : a * 2 ^ (8 * (w + 1)) = a * 2 ^ (8 * w) * 256 := by
      rw [show 8 * (w + 1) = 8 * w + 8 by ring, pow_add]; norm_num; ring
    have hsplit := digit_split w v
    have hbound : a * 2 ^ (8 * w) + v / 256 % 2 ^ (8 * w) < M := by
      set A := a * 2 ^ (8 * w) with hAdef
      set B := v / 256 % 2 ^ (8 * w) with hBdef
      have : A * 256 + (B * 256 + v % 256) < M := by
        rw [← hA, hsplit] at *; omega
      omega
    rw [serialize_succ_append, List.foldl_append, ih a (v / 256) hbound]
    simp only [List.foldl_cons, List.foldl_nil]
    rw [add_mul, mul_assoc]
    have : a * (2 ^ (8 * w) * 256) = a * 2 ^ (8 * (w + 1)) := by rw [hA]; ring
    rw [this, add_assoc, hsplit, Nat.mod_eq_of_lt h]

/-- Big-endian round trip: deserializing the `w` bytes written by `serialize`
recovers any value `v < 2 ^ (8 * w)`. -/
theorem deserialize_serialize (w v : Nat) (hw : 0 < w) (hv : v < 2 ^ (8 * w)) :
    deserialize w (serialize w v) = v := by
  have hM : (256 : Nat) ≤ 2 ^ (8 * w) := by
    calc (256 : Nat) = 2 ^ 8 := by norm_num
      _ ≤ 2 ^ (8 * w) := Nat.pow_le_pow_right (by norm_num) (by omega)
  have hfold := foldl_serialize (2 ^ (8 * w)) w 0 v
    (by simpa [Nat.mod_eq_of_lt hv] using hv)
  simp only [zero_mul, zero_add, Nat.mod_eq_of_lt hv] at hfold
  cases hs : serialize w v with
  | nil =>
    exfalso
    have := congrArg List.length hs
    simp [serialize] at this
    omega
  | cons b rest =>
    rw [hs] at hfold
    simp only [List.foldl_cons, zero_mul, zero_add] at hfold
    show rest.foldl (fun acc x => (acc * 256 + x.val) % 2 ^ (8 * w)) b.val = v
    rw [← hfold]
    congr 1
    exact (Nat.mod_eq_of_lt (lt_of_lt_of_le b.isLt hM)).symm

theorem foldl_lt (M : Nat) (hM : 0 < M) (l : List Byte) :
    ∀ a, a < M → l.foldl (fun acc x => (acc * 256 + x.val) % M) a < M := by
  induction l with
  | nil => intro a ha; simpa using ha
  | cons c cs ih =>
    intro a ha
    simp only [List.foldl_cons]
    exact ih _ (Nat.mod_lt _ hM)

/-- The result of `deserialize` is always below `2 ^ (8 * w)` for `w ≥ 1`
(the buffer bytes are below `256 = 2 ^ 8` and every fold step reduces
modulo `2 ^ (8 * w)`). -/
theorem deserialize_lt (w : Nat) (hw : 0 < w) (l : List Byte) :
    deserialize w l < 2 ^ (8 * w) := by
  have hM : (256 : Nat) ≤ 2 ^ (8 * w) := by
    calc (256 : Nat) = 2 ^ 8 := by norm_num
      _ ≤ 2 ^ (8 * w) := Nat.pow_le_pow_right (by norm_num) (by omega)
  match l with
  | [] => simpa [deserialize] using Nat.pos_pow_of_pos (8 * w) (by norm_num)
  | b :: rest =>
    exact foldl_lt _ (by positivity) rest b.val (lt_of_lt_of_le b.isLt hM)

end Coder

/-- Source `internal::EpochDeltaSeconds { 0x83AA7E80 }`: seconds between the NTP
prime epoch (1900-01-01) and the Unix epoch (1970-01-01). -/
def EpochDeltaSeconds : Nat := 0x83AA7E80

/-- Wrapping `uint64_t` subtraction `a - b`. All call sites pass `b < 2^64`,
so the `Nat` truncated subtraction never bites. -/
def usub64 (a b : Nat) : Nat := (a + 2 ^ 64 - b) % 2 ^ 64

/-- Source `Timestamp` (timestamp.hpp): wraps one `uint64_t m_data`, a 32.32
fixed-point NTP timestamp. The raw-value constructor is `Timestamp.mk`. -/
structure Timestamp where
  mData : Nat
  deriving DecidableEq, Repr

namespace Timestamp

/-- Source `Timestamp(uint32_t seconds, uint32_t fraction)`:
`(uint64_t(seconds) << 32) | fraction`. The fraction occupies the low 32
bits, so the bitwise or is addition. -/
def ofParts (seconds fraction : Nat) : Timestamp :=
  ⟨seconds % 2 ^ 32 * 2 ^ 32 + fraction % 2 ^ 32⟩

/-- Source `Timestamp::seconds()`: `static_cast<uint32_t>(m_data >> 32)`. -/
def seconds (t : Timestamp) : Nat := t.mData / 2 ^ 32 % 2 ^ 32

/-- Source `Timestamp::fraction()`: `static_cast<uint32_t>(m_data)`. -/
def fraction (t : Timestamp) : Nat := t.mData % 2 ^ 32

/-- Source `Timestamp::value()`: the raw 64-bit value. -/
def value (t : Timestamp) : Nat := t.mData

/-- Source `Timestamp::duration()`: the timestamp as a `system_clock::duration`
(nanosecond count):
`seconds(seconds()) + system_clock::duration(int(DurationRange * fraction() / FractionRange))`
with `DurationRange = 10^9` and `FractionRange = 2^32`.
The `double` product `10^9 * fraction` is exact (`10^9 = 2^9 * 1953125` and
`1953125 * fraction < 2^53`), division by `2^32` is an exact exponent shift,
and the `int` cast truncates the nonnegative exact value, i.e. floor:
the fractional summand is exactly `fraction * 10^9 / 2^32` in `Nat` floor
division. -/
def durationNs (t : Timestamp) : Int :=
  (t.seconds * 10 ^ 9 + t.fraction * 10 ^ 9 / 2 ^ 32 : Nat)

/-- Source `Timestamp::operator-`: `duration() - other.duration()`, a signed
`system_clock::duration`. -/
def sub (a b : Timestamp) : Int := a.durationNs - b.durationNs

/-- Source `Timestamp::durationToValue(duration)` on a duration of `ns` nanoseconds:
`uint64_t(duration_cast<seconds>(duration).count()) << 32
   | uint32_t(FractionRange * double((duration % seconds(1)).count()) / DurationRange)`.
`duration_cast<seconds>` truncates toward zero (`Int.tdiv`) and `%` keeps the
dividend's sign (`Int.tmod`). The high word is reduced mod `2^64` by the
`uint64_t` cast, and the `<< 32` then discards its upper 32 bits. For the
fraction, the `double` product `2^32 * rem` is an exact exponent shift and
the quotient by `10^9` rounds to nearest once; over this development every
use has a remainder that keeps the truncated quotient equal to the exact
floor `rem * 2^32 / 10^9` (sub-millisecond remainders and exact dyadic
fractions), which is how it is modelled. Negative remainders (only reachable
for time points before 1900) fall outside the modelled domain and are sent
to fraction 0. -/
def durationToValue (ns : Int) : Nat :=
  let secs : Int := ns.tdiv (10 ^ 9)
  let rem : Int := ns.tmod (10 ^ 9)
  (secs.emod (2 ^ 64)).toNat * 2 ^ 32 % 2 ^ 64 + rem.toNat * 2 ^ 32 / 10 ^ 9

/-- Source `Timestamp(std::chrono::system_clock::duration duration)`. -/
def ofDuration (ns : Int) : Timestamp := ⟨durationToValue ns⟩

/-- Source `Timestamp(std::chrono::system_clock::time_point timePoint)`:
`durationToValue(timePoint.time_since_epoch() + internal::EpochDeltaSeconds)`.
The time point is its duration since the Unix epoch, in nanoseconds. -/
def ofTimePoint (ns : Int) : Timestamp :=
  ⟨durationToValue (ns + EpochDeltaSeconds * 10 ^ 9)⟩

end Timestamp

namespace internal

/-- Source `internal::isZeroed(data)`: no byte of the 48-byte array is non-zero. -/
def isZeroed (data : List Byte) : Bool := data.all fun b => b.val = 0

/-- Source `internal::pointerize(data)`: a null shared pointer for an all-zero
array, otherwise a pointer to a copy of the array. -/
def pointerize (data : List Byte) : Option (List Byte) :=
  if isZeroed data then none else some data

end internal

/-- Source `Packet` (packet.hpp): an immutable raw NTP packet;
`std::shared_ptr<const DataType> m_data` is either null or a 48-byte buffer.
Every constructor routes the buffer through `internal::pointerize`, so the
all-zero payload is stored as the null pointer. -/
structure Packet where
  mData : Option (List Byte)
  deriving DecidableEq, Repr

namespace Packet

/-- Source `Packet()` — the default-constructed (null) packet. -/
def null : Packet := ⟨none⟩

/-- Source `Packet(const DataType& data)`. -/
def ofData (data : List Byte) : Packet := ⟨internal.pointerize data⟩

/-- Source `Packet(leap, version, mode, stratum, poll, precision, rootDelay,
rootDispersion, referenceID, referenceTimestamp, originTimestamp,
receiveTimestamp, transmitTimestamp)`: serializes the thirteen fields
into the 48-byte buffer and pointerizes it. `poll` and `precision` are
`int8_t`, serialized through `static_cast<uint8_t>` (`emod 256`); the
first byte is `uint8_t(leap << 6 | version << 3 | mode)`. -/
def ofFields (leap version mode stratum : Nat) (poll precision : Int)
    (rootDelay rootDispersion referenceID : Nat)
    (referenceTimestamp originTimestamp receiveTimestamp transmitTimestamp : Nat) : Packet :=
  ofData (Coder.serialize 1 ((leap <<< 6 ||| version <<< 3 ||| mode) % 256)
    ++ Coder.serialize 1 stratum
    ++ Coder.serialize 1 (poll.emod 256).toNat
    ++ Coder.serialize 1 (precision.emod 256).toNat
    ++ Coder.serialize 4 rootDelay
    ++ Coder.serialize 4 rootDispersion
    ++ Coder.serialize 4 referenceID
    ++ Coder.serialize 8 referenceTimestamp
    ++ Coder.serialize 8 originTimestamp
    ++ Coder.serialize 8 receiveTimestamp
    ++ Coder.serialize 8 transmitTimestamp)

/-- Source `Packet::data()`: the underlying buffer, or 48 zero bytes for a packet
with no buffer (`DataType {}` value-initializes the array). -/
def data (p : Packet) : List Byte :=
  match p.mData with
  | none => List.replicate 48 ⟨0, by norm_num⟩
  | some d => d

/-- Source `Packet::isNull()`: `!m_data || internal::isZeroed(*m_data)`. -/
def isNull (p : Packet) : Bool :=
  match p.mData with
  | none => true
  | some d => internal.isZeroed d

/-- Source `Packet::operator==`:
`m_data && other.m_data ? *m_data == *other.m_data : isNull() && other.isNull()`. -/
def beq (p q : Packet) : Bool :=
  match p.mData, q.mData with
  | some a, some b => a = b
  | _, _ => p.isNull && q.isNull

/-- Reads `w` bytes at byte offset `off` of the buffer through
`Coder::deserialize`, or 0 for a bufferless packet — the common shape of all
multi-byte field accessors (`m_data ? Coder::deserialize<T>(&m_data->at(off)) : 0`). -/
def fieldAt (p : Packet) (off w : Nat) : Nat :=
  match p.mData with
  | none => 0
  | some d => Coder.deserialize w ((d.drop off).take w)

/-- Byte 0 of the buffer, or 0 (`m_data->at(0)`). -/
def byte0 (p : Packet) : Nat :=
  match p.mData with
  | none => 0
  | some d => (d.headD ⟨0, by norm_num⟩).val

/-- Source `Packet::leap()`: `m_data ? m_data->at(0) >> 6 : 0`. -/
def leap (p : Packet) : Nat := p.byte0 / 2 ^ 6

/-- Source `Packet::version()`: `m_data ? m_data->at(0) >> 3 & 7 : 0`. -/
def version (p : Packet) : Nat := p.byte0 / 2 ^ 3 % 8

/-- Source `Packet::mode()`: `m_data ? m_data->at(0) & 7 : 0`. -/
def mode (p : Packet) : Nat := p.byte0 % 8

/-- Source `Packet::stratum()`: byte 1. -/
def stratum (p : Packet) : Nat := p.fieldAt 1 1

/-- Source `Packet::poll()`: `static_cast<int8_t>` of byte 2. -/
def poll (p : Packet) : Int :=
  let b := p.fieldAt 2 1
  if b < 128 then (b : Int) else (b : Int) - 256

/-- Source `Packet::precision()`: `static_cast<int8_t>` of byte 3. -/
def precision (p : Packet) : Int :=
  let b := p.fieldAt 3 1
  if b < 128 then (b : Int) else (b : Int) - 256

/-- Source `Packet::rootDelay()`: bytes 4..7, big-endian. -/
def rootDelay (p : Packet) : Nat := p.fieldAt 4 4

/-- Source `Packet::rootDispersion()`: bytes 8..11, big-endian. -/
def rootDispersion (p : Packet) : Nat := p.fieldAt 8 4

/-- Source `Packet::referenceID()`: bytes 12..15, big-endian. -/
def referenceID (p : Packet) : Nat := p.fieldAt 12 4

/-- Source `Packet::referenceTimestamp()`: bytes 16..23, big-endian. -/
def referenceTimestamp (p : Packet) : Nat := p.fieldAt 16 8

/-- Source `Packet::originTimestamp()`: bytes 24..31, big-endian. -/
def originTimestamp (p : Packet) : Nat := p.fieldAt 24 8

/-- Source `Packet::receiveTimestamp()`: bytes 32..39, big-endian. -/
def receiveTimestamp (p : Packet) : Nat := p.fieldAt 32 8

/-- Source `Packet::transmitTimestamp()`: bytes 40..47, big-endian. -/
def transmitTimestamp (p : Packet) : Nat := p.fieldAt 40 8

/-- Source `Packet::delay(destination)`:
`Timestamp(destination - originTimestamp()) - Timestamp(transmitTimestamp() - receiveTimestamp())`.
The inner subtractions are wrapping `uint64_t` subtraction on the raw
timestamps; the outer one is `Timestamp::operator-`. -/
def delay (p : Packet) (destination : Nat) : Int :=
  Timestamp.sub ⟨usub64 destination p.originTimestamp⟩
    ⟨usub64 p.transmitTimestamp p.receiveTimestamp⟩

/-- Source `Packet::offset(uint64_t destination)`:
`((Timestamp(receiveTimestamp()) - Timestamp(originTimestamp())) + (Timestamp(transmitTimestamp()) - Timestamp(destination))) / 2`.
chrono duration division truncates toward zero. -/
def offset (p : Packet) (destination : Nat) : Int :=
  (Timestamp.sub ⟨p.receiveTimestamp⟩ ⟨p.originTimestamp⟩
    + Timestamp.sub ⟨p.transmitTimestamp⟩ ⟨destination⟩).tdiv 2

/-- Source `static_cast<int32_t>` of a 64-bit signed count: two's-complement
truncation to 32 bits. -/
def int32Cast (x : Int) : Int :=
  let u := x.emod (2 ^ 32)
  if u < 2 ^ 31 then u else u - 2 ^ 32

/-- Source `Packet::offset(const system_clock::time_point& destination)`:
`rawOffset = offset(Timestamp(destination.time_since_epoch() + EpochDeltaSeconds).value())`,
then `seconds(int32_t(duration_cast<seconds>(rawOffset).count())) + rawOffset % seconds(1)`.
The destination time point is its nanosecond count since the Unix epoch. -/
def offsetTP (p : Packet) (destinationNs : Int) : Int :=
  let rawOffset := p.offset (Timestamp.ofTimePoint destinationNs).value
  int32Cast (rawOffset.tdiv (10 ^ 9)) * 10 ^ 9 + rawOffset.tmod (10 ^ 9)

end Packet

/-! ## Query state machines

The asynchronous query classes are I/O-bound; what the claims speak about is
the pure decision logic inside their completion handlers, which is embedded
here as total functions of the handler inputs. Error codes are the asio/errno
numeric values used on Linux; only `0` (success) and the distinguished
constants matter to the logic. -/

/-- Source `asio::error::operation_aborted` (ECANCELED). -/
def operationAborted : Nat := 125

/-- Source `asio::error::timed_out` (ETIMEDOUT). -/
def timedOut : Nat := 110

/-- Source `asio::error::message_size` (EMSGSIZE). -/
def messageSize : Nat := 90

/-- The three-way sentinel encoded in a `steady_timer`'s expiry:
an ordinary deadline, `time_point::min()` (set by the timeout handler), or
`time_point::max()` (set by `cancel()`). -/
inductive Expiry where
  | normal
  | min
  | max
  deriving DecidableEq, Repr

namespace QuerySingle

/-- The receive-completion handler inside `QuerySingle::start`, as a pure
function of the transport `error`, the received byte count `size`, the timer
expiry sentinel and the receive buffer; returns the `(error, packet)` pair
passed to the callback:

    if (error || size != m_buffer.size() || expiry == max)
      callback(server, expiry == max ? operation_aborted
                        : (expiry == min ? timed_out
                        : (error ? error : message_size)), Packet(), rtt);
    else
      callback(server, error, Packet(m_buffer), rtt);

(`m_buffer.size()` is 48.) -/
def receiveOutcome (error size : Nat) (expiry : Expiry) (buffer : List Byte) : Nat × Packet :=
  if error ≠ 0 ∨ size ≠ 48 ∨ expiry = .max then
    (if expiry = .max then operationAborted
     else if expiry = .min then timedOut
     else if error ≠ 0 then error
     else messageSize,
     Packet.null)
  else (error, Packet.ofData buffer)

end QuerySingle

namespace QuerySeries

variable {E : Type} [DecidableEq E]

/-- Source `QuerySeries::index(endpoint)`: the distance from `m_endpoints.cbegin()`
to the first entry whose endpoint equals `endpoint` (the list length when no
entry matches). -/
def index (endpoints : List E) (endpoint : E) : Nat :=
  endpoints.findIdx (· = endpoint)

/-- What the series forwarder does with one `QuerySingle` completion:
either start the next `QuerySingle` (the caller's callback is not invoked)
or cancel the series timer and invoke the caller's callback once, with the
reported error. -/
inductive ForwarderAction (E : Type) where
  | next (target : E)
  | finish (error : Nat)
  deriving DecidableEq, Repr

/-- The forwarder closure of `QuerySeries::start` as a pure function of the
completing endpoint, its error, and the series timer expiry sentinel:

    if (error && error != operation_aborted && index(endpoint) < m_endpoints.size() - 1)
      m_subquery = QuerySingle::start(io, next(begin, index(endpoint) + 1)->endpoint(), m_callback);
    else {
      m_timer.cancel(); m_callback = {};
      callback(endpoint, expiry == max ? operation_aborted
                          : (expiry == min ? timed_out : error), packet, rtt);
    }
-/
def forwarderStep (endpoints : List E) (expiry : Expiry) (endpoint : E) (error : Nat) :
    ForwarderAction E :=
  if error ≠ 0 ∧ error ≠ operationAborted ∧ index endpoints endpoint < endpoints.length - 1
  then .next (endpoints.getD (index endpoints endpoint + 1) endpoint)
  else .finish (if expiry = .max then operationAborted
                else if expiry = .min then timedOut
                else error)

end QuerySeries

namespace Query

/-- Source `Query::Status` with its numeric encoding. -/
inductive Status where
  | ResolveError
  | SendError
  | ReceiveError
  | TimeoutError
  | Cancelled
  | Succeeded
  deriving DecidableEq, Repr

/-- The `uint8_t` value of each status. -/
def Status.val : Status → Nat
  | .ResolveError => 1
  | .SendError => 2
  | .ReceiveError => 4
  | .TimeoutError => 8
  | .Cancelled => 16
  | .Succeeded => 32

/-- The status computed by the `QuerySeries`-completion callback inside
`Query::start`:

    error ? (packet.isNull() ? Status::ReceiveError : Status::SendError) : Status::Succeeded
-/
def seriesStatus (error : Nat) (packet : Packet) : Status :=
  if error ≠ 0 then
    (if packet.isNull then .ReceiveError else .SendError)
  else .Succeeded

end Query

end ntp

/-! ## Calendar types (`Date`, `Time`, `DateTime`)

`Time` stores a `std::chrono::nanoseconds` duration; `Date` stores int
year/month/day fields. Durations are `Int` nanosecond counts; C++ `int`
fields are `Int` (the claims stay far from the 32-bit boundary). -/

/-- Source `Date` (date.hpp): `int m_year; int m_month; int m_day;`. -/
structure Date where
  m_year : Int
  m_month : Int
  m_day : Int
  deriving DecidableEq, Repr

namespace Date

/-- Source `Date::isLeapYear(year)`: years before 1 CE are shifted up by one first
(there is no year 0), then the Gregorian rule. C++ `%` is truncating
remainder (`Int.tmod`). -/
def isLeapYear (year : Int) : Bool :=
  let y := if year < 1 then year + 1 else year
  y.tmod 4 = 0 ∧ (y.tmod 100 ≠ 0 ∨ y.tmod 400 = 0)

/-- Source `Date::daysInMonthOfYear(year, month)`: the `switch` over the month,
`-1` for an out-of-range month. -/
def daysInMonthOfYear (year month : Int) : Int :=
  if month = 1 then 31
  else if month = 2 then (if isLeapYear year then 29 else 28)
  else if month = 3 then 31
  else if month = 4 then 30
  else if month = 5 then 31
  else if month = 6 then 30
  else if month = 7 then 31
  else if month = 8 then 31
  else if month = 9 then 30
  else if month = 10 then 31
  else if month = 11 then 30
  else if month = 12 then 31
  else -1

/-- Source `Date::isValid()`:
`m_year != 0 && (m_month > 0 && m_month < 13) && (m_day > 0 && m_day < daysInMonthOfYear(m_year, m_month) + 1)`. -/
def isValid (d : Date) : Bool :=
  d.m_year ≠ 0 ∧ (0 < d.m_month ∧ d.m_month < 13)
    ∧ (0 < d.m_day ∧ d.m_day < daysInMonthOfYear d.m_year d.m_month + 1)

/-- Source `Date::day()`. -/
def day (d : Date) : Int := d.m_day

/-- Source `Date::month()`. -/
def month (d : Date) : Int := d.m_month

/-- Source `Date::year()`. -/
def year (d : Date) : Int := d.m_year

/-- The body of `Date::addMonths(months)` on the non-negative branch
(`months >= 0`):

    totalMonths = m_month + months - 1;
    newYear = m_year + totalMonths / 12;
    newMonth = (totalMonths % 12) + 1;
    newDaysInMonth = daysInMonthOfYear(newYear, newMonth);
    newDays = newDaysInMonth < m_day ? newDaysInMonth : m_day;

C++ `/` and `%` on `int` truncate toward zero. -/
def addMonthsCore (d : Date) (months : Int) : Date :=
  let totalMonths := d.m_month + months - 1
  let newYear := d.m_year + totalMonths.tdiv 12
  let newMonth := totalMonths.tmod 12 + 1
  let newDaysInMonth := daysInMonthOfYear newYear newMonth
  let newDays := if newDaysInMonth < d.m_day then newDaysInMonth else d.m_day
  ⟨newYear, newMonth, newDays⟩

/-- The body of `Date::subtractMonths(months)` on the non-negative branch
(`months >= 0`):

    newYear = m_year - (std::abs(m_month - months - 12) / 12);
    newMonth = ((11 + m_month - (months % 12)) % 12) + 1;
    newDaysInMonth = daysInMonthOfYear(newYear, newMonth);
    newDays = newDaysInMonth < m_day ? newDaysInMonth : m_day;
-/
def subtractMonthsCore (d : Date) (months : Int) : Date :=
  let newYear := d.m_year - ((d.m_month - months - 12).natAbs / 12 : Nat)
  let newMonth := (11 + d.m_month - months.tmod 12).tmod 12 + 1
  let newDaysInMonth := daysInMonthOfYear newYear newMonth
  let newDays := if newDaysInMonth < d.m_day then newDaysInMonth else d.m_day
  ⟨newYear, newMonth, newDays⟩

/-- Source `Date::addMonths(months)`: delegates to `subtractMonths(-months)` when
`months < 0` (which then runs the non-negative subtract body). -/
def addMonths (d : Date) (months : Int) : Date :=
  if months < 0 then subtractMonthsCore d (-months) else addMonthsCore d months

/-- Source `Date::subtractMonths(months)`: delegates to `addMonths(-months)` when
`months < 0` (which then runs the non-negative add body). -/
def subtractMonths (d : Date) (months : Int) : Date :=
  if months < 0 then addMonthsCore d (-months) else subtractMonthsCore d months

end Date

/-- Source `Time` (time.hpp): wraps `Duration m_duration` where
`Duration = std::chrono::nanoseconds`. -/
structure Time where
  m_duration : Int
  deriving DecidableEq, Repr

namespace Time

/-- Nanoseconds in a day/hour/minute/second. -/
def nsPerDay : Int := 86400000000000
def nsPerHour : Int := 3600000000000
def nsPerMinute : Int := 60000000000
def nsPerSecond : Int := 1000000000

/-- Source `Time::isValid()`: `m_duration.count() >= 0 && m_duration < Days(1)`. -/
def isValid (t : Time) : Bool := 0 ≤ t.m_duration ∧ t.m_duration < nsPerDay

/-- Source `Time::hour()`: `duration_cast<Hours>(m_duration % Days(1)).count()`. -/
def hour (t : Time) : Int := (t.m_duration.tmod nsPerDay).tdiv nsPerHour

/-- Source `Time::minute()`: `duration_cast<Minutes>(m_duration % Hours(1)).count()`. -/
def minute (t : Time) : Int := (t.m_duration.tmod nsPerHour).tdiv nsPerMinute

/-- Source `Time::second()`: `duration_cast<Seconds>(m_duration % Minutes(1)).count()`. -/
def second (t : Time) : Int := (t.m_duration.tmod nsPerMinute).tdiv nsPerSecond

end Time

/-- Source `DateTime` (datetime.hpp): `Date m_date; Time m_time;`. -/
structure DateTime where
  m_date : Date
  m_time : Time
  deriving DecidableEq, Repr

/-- Source `std::tm` with the fields `toBrokenStdTime` touches;
`std::tm cTime = { 0 }` zero-initializes every field. -/
structure Tm where
  tm_sec : Int
  tm_min : Int
  tm_hour : Int
  tm_mday : Int
  tm_mon : Int
  tm_year : Int
  deriving DecidableEq, Repr

namespace DateTime

/-- Source `DateTime::isValid()`: both parts valid. -/
def isValid (dt : DateTime) : Bool := dt.m_date.isValid ∧ dt.m_time.isValid

/-- Source `DateTime::day()`. -/
def day (dt : DateTime) : Int := dt.m_date.day

/-- Source `DateTime::month()`. -/
def month (dt : DateTime) : Int := dt.m_date.month

/-- Source `DateTime::year()`. -/
def year (dt : DateTime) : Int := dt.m_date.year

/-- Source `DateTime::hour()`. -/
def hour (dt : DateTime) : Int := dt.m_time.hour

/-- Source `DateTime::minute()`. -/
def minute (dt : DateTime) : Int := dt.m_time.minute

/-- Source `DateTime::second()`. -/
def second (dt : DateTime) : Int := dt.m_time.second

/-- Source `DateTime::addMonths(months)`:
`DateTime(m_date.subtractMonths(months), m_time)` — note the delegation to
`Date::subtractMonths`. -/
def addMonths (dt : DateTime) (months : Int) : DateTime :=
  ⟨dt.m_date.subtractMonths months, dt.m_time⟩

/-- Source `DateTime::subtractMonths(months)`:
`DateTime(m_date.subtractMonths(months), m_time)`. -/
def subtractMonths (dt : DateTime) (months : Int) : DateTime :=
  ⟨dt.m_date.subtractMonths months, dt.m_time⟩

/-- Source `DateTime::toBrokenStdTime()`:

    int y, m, d;
    getYearMonthDay(&y, &m, &d);
    std::tm cTime = { 0 };
    cTime.tm_year = y - 1970;
    cTime.tm_year = m;
    cTime.tm_year = d;
    cTime.tm_hour = hour();
    cTime.tm_min = minute();
    cTime.tm_sec = second();

The three sequential stores all target `tm_year`, mirrored by the chain of
record updates. -/
def toBrokenStdTime (dt : DateTime) : Tm :=
  let y := dt.year
  let m := dt.month
  let d := dt.day
  let c0 : Tm := ⟨0, 0, 0, 0, 0, 0⟩
  let c1 := { c0 with tm_year := y - 1970 }
  let c2 := { c1 with tm_year := m }
  let c3 := { c2 with tm_year := d }
  { c3 with tm_hour := dt.hour, tm_min := dt.minute, tm_sec := dt.second }

end DateTime

/-! ## Claim theorems -/

namespace ntp

/-- Claim C7: For every unsigned integer type `T` of width 1, 2, 4, or 8 bytes
and every value `v` in range, `Coder::deserialize<T>` applied to the bytes
written by `Coder::serialize<T>(v)` returns `v`, and serialization is
big-endian: `serialize<u32>(0x01234567)` writes `[0x01, 0x23, 0x45, 0x67]`. -/
theorem coder_roundtrip_bigendian :
    (∀ w ∈ ([1, 2, 4, 8] : List Nat), ∀ v < 2 ^ (8 * w),
      Coder.deserialize w (Coder.serialize w v) = v)
    ∧ Coder.serialize 4 0x01234567 = [(0x01 : Byte), 0x23, 0x45, 0x67] := by
  constructor
  · intro w hw v hv
    refine Coder.deserialize_serialize w v ?_ hv
    have h : w = 1 ∨ w = 2 ∨ w = 4 ∨ w = 8 := by simpa using hw
    omega
  · decide

theorem coder_roundtrip_bigendian_witness :
    (4 ∈ ([1, 2, 4, 8] : List Nat)) ∧ 0x01234567 < 2 ^ (8 * 4)
      ∧ Coder.deserialize 4 (Coder.serialize 4 0x01234567) = 0x01234567 :=
  ⟨by decide, by norm_num,
    coder_roundtrip_bigendian.1 4 (by decide) 0x01234567 (by norm_num)⟩

/-- Claim C10: The all-zero payload is canonicalized to the bufferless null
representation: a `Packet` built from 13 all-zero field values or from a
48-byte all-zero array stores no underlying buffer, satisfies `isNull()`,
compares equal to a default-constructed `Packet`, returns 48 zero bytes from
`data()`, and returns 0 from every field accessor — indistinguishable from
the absence of a packet. -/
theorem packet_allzero_is_null :
    (Packet.ofFields 0 0 0 0 0 0 0 0 0 0 0 0 0).mData = none
    ∧ (Packet.ofData (List.replicate 48 (0 : Byte))).mData = none
    ∧ (Packet.ofData (List.replicate 48 (0 : Byte))).isNull = true
    ∧ Packet.beq (Packet.ofData (List.replicate 48 (0 : Byte))) Packet.null = true
    ∧ Packet.beq (Packet.ofFields 0 0 0 0 0 0 0 0 0 0 0 0 0) Packet.null = true
    ∧ (Packet.ofData (List.replicate 48 (0 : Byte))).data = List.replicate 48 (0 : Byte)
    ∧ (Packet.ofData (List.replicate 48 (0 : Byte))).leap = 0
    ∧ (Packet.ofData (List.replicate 48 (0 : Byte))).version = 0
    ∧ (Packet.ofData (List.replicate 48 (0 : Byte))).mode = 0
    ∧ (Packet.ofData (List.replicate 48 (0 : Byte))).stratum = 0
    ∧ (Packet.ofData (List.replicate 48 (0 : Byte))).poll = 0
    ∧ (Packet.ofData (List.replicate 48 (0 : Byte))).precision = 0
    ∧ (Packet.ofData (List.replicate 48 (0 : Byte))).rootDelay = 0
    ∧ (Packet.ofData (List.replicate 48 (0 : Byte))).rootDispersion = 0
    ∧ (Packet.ofData (List.replicate 48 (0 : Byte))).referenceID = 0
    ∧ (Packet.ofData (List.replicate 48 (0 : Byte))).referenceTimestamp = 0
    ∧ (Packet.ofData (List.replicate 48 (0 : Byte))).originTimestamp = 0
    ∧ (Packet.ofData (List.replicate 48 (0 : Byte))).receiveTimestamp = 0
    ∧ (Packet.ofData (List.replicate 48 (0 : Byte))).transmitTimestamp = 0 := by
  decide

/-- Claim C6: For every system-clock tick count `d` in `[0, 1 ms)` — i.e. a
nanosecond count below `10^6` — encoding `d` as an NTP timestamp and
converting back via `duration()` stays within one tick:
`|Timestamp(d).duration() - d| ≤ 1`. -/
theorem timestamp_duration_roundtrip (c : Nat) (hc : c < 1000000) :
    ((Timestamp.ofDuration (c : Int)).durationNs - (c : Int)).natAbs ≤ 1 := by
  show ((((c / 1000000000 % 18446744073709551616) * 4294967296 % 18446744073709551616
          + c % 1000000000 * 4294967296 / 1000000000) / 4294967296 % 4294967296 * 1000000000
        + ((c / 1000000000 % 18446744073709551616) * 4294967296 % 18446744073709551616
          + c % 1000000000 * 4294967296 / 1000000000) % 4294967296 * 1000000000 / 4294967296 : Nat)
      - (c : Int)).natAbs ≤ 1
  have hb : c / 1000000000 = 0 := by omega
  have hm : c % 1000000000 = c := by omega
  rw [hb, hm]
  simp only [Nat.zero_mod, Nat.zero_mul, Nat.zero_add]
  have hd : c * 4294967296 / 1000000000 / 4294967296 = 0 := by omega
  have hm2 : c * 4294967296 / 1000000000 % 4294967296 = c * 4294967296 / 1000000000 := by omega
  rw [hd, hm2]
  simp only [Nat.zero_mod, Nat.zero_mul, Nat.zero_add]
  omega

/-- For a raw value below `2^64`, `Timestamp::duration()` is the floor of
`value * 10^9 / 2^32` nanoseconds. -/
theorem durationNs_eq (x : Nat) (hx : x < 18446744073709551616) :
    Timestamp.durationNs ⟨x⟩ = ((x * 1000000000 / 4294967296 : Nat) : Int) := by
  show ((x / 4294967296 % 4294967296 * 1000000000
      + x % 4294967296 * 1000000000 / 4294967296 : Nat) : Int) = _
  congr 1
  have hq : x / 4294967296 % 4294967296 = x / 4294967296 :=
    Nat.mod_eq_of_lt (by omega)
  rw [hq]
  have hx2 : x * 1000000000
      = x % 4294967296 * 1000000000 + x / 4294967296 * 1000000000 * 4294967296 := by
    calc x * 1000000000
        = (4294967296 * (x / 4294967296) + x % 4294967296) * 1000000000 := by
          rw [Nat.div_add_mod]
      _ = x % 4294967296 * 1000000000 + x / 4294967296 * 1000000000 * 4294967296 := by
          ring
  rw [hx2, Nat.add_mul_div_right _ _ (show 0 < 4294967296 by norm_num)]
  omega

/-- Adding `k` quarter-seconds (`k * 2^30` fraction units, `k ≤ 4`) to a raw
timestamp shifts its duration by exactly `k * 250000000` nanoseconds, because
`2^30 * 10^9 = 2^32 * 250000000`. -/
theorem durationNs_add_quarter (x k : Nat) (hk : k ≤ 4)
    (hx : x + k * 1073741824 < 18446744073709551616) :
    Timestamp.durationNs ⟨x + k * 1073741824⟩
      = Timestamp.durationNs ⟨x⟩ + k * 250000000 := by
  rw [durationNs_eq _ hx, durationNs_eq _ (by omega)]
  have h : (x + k * 1073741824) * 1000000000
      = x * 1000000000 + k * 250000000 * 4294967296 := by ring
  rw [h, Nat.add_mul_div_right _ _ (show 0 < 4294967296 by norm_num)]
  push_cast
  ring

/-- Source `usub64` under no-wrap conditions is plain subtraction. -/
theorem usub64_of_le (a b : Nat) (hba : b ≤ a) (ha : a < 18446744073709551616) :
    usub64 a b = a - b := by
  show (a + 18446744073709551616 - b) % 18446744073709551616 = a - b
  omega

theorem timestamp_duration_roundtrip_witness :
    999999 < 1000000
      ∧ ((Timestamp.ofDuration (999999 : Int)).durationNs - (999999 : Int)).natAbs ≤ 1 :=
  ⟨by norm_num, by
    have h := timestamp_duration_roundtrip 999999 (by norm_num)
    simpa using h⟩

/-- The packet of the cross-era exchange: origin `0xFFFFFFFF.00000000`
(end of era 0), receive `0.10000000` (era 1), transmit `0.20000000`
(= receive + `0.10000000`). -/
def crossEraPacket : Packet :=
  Packet.ofFields 0 0 0 0 0 0 0 0 0 0 0xFFFFFFFF00000000 0x10000000 0x20000000

/-- Claim C1, counterexample: At the claim's literal inputs — `crossEraPacket`
with the destination supplied as a system time point 0.25 s into era 1
(`(2^32 - 2208988800) * 10^9 + 250000000` ns since the Unix epoch, which
encodes to timestamp `0x0000000040000000`) — the era-resolving overload
returns `-2147483647531250000` ns (≈ `-2^31` s), not `+1 s - 31250 µs`
(= `968750000` ns): the truncated seconds count `-2147483647` already fits
`int32_t`, so the reinterpretation does not wrap it. -/
theorem offsetTP_claim_scenario_false :
    Packet.offsetTP crossEraPacket 2085978496250000000 = -2147483647531250000
    ∧ (Timestamp.ofTimePoint 2085978496250000000).value = 0x40000000
    ∧ (-2147483647531250000 : Int) ≠ 968750000 := by
  refine ⟨by decide, by decide, by decide⟩

/-- Claim C1, amended: `Packet::offset(time_point)` computes the raw offset
from the timestamp obtained by encoding `destination + ERA_DELTA`, truncates
its whole-seconds count, reinterprets that count as a signed 32-bit integer
and recombines it with the sub-second remainder; in the cross-era exchange
(origin `0xFFFFFFFF.00000000`, receive `0.10000000` in era 1, transmit
`receive + 0.10000000`) it returns `+1 s - 31250 µs` for the destination
`0xFFFFFFFF.40000000` supplied as a time point at the end of era 0
(`(0xFFFFFFFF - 2208988800) * 10^9 + 250000000` ns since the Unix epoch). -/
theorem offsetTP_era_resolution :
    (∀ (p : Packet) (tp : Int),
      Packet.offsetTP p tp
        = Packet.int32Cast ((Packet.offset p (Timestamp.ofTimePoint tp).value).tdiv 1000000000)
            * 1000000000
          + (Packet.offset p (Timestamp.ofTimePoint tp).value).tmod 1000000000)
    ∧ (Timestamp.ofTimePoint 2085978495250000000).value = 0xFFFFFFFF40000000
    ∧ Packet.offsetTP crossEraPacket 2085978495250000000 = 968750000 :=
  ⟨fun p tp => rfl, by decide, by decide⟩

/-- The packet of a wrapped exchange: origin one NTP second after the prime
epoch (raw `2^32`), receive and transmit at the prime epoch (raw 0). -/
def wrapPacket : Packet :=
  Packet.ofFields 0 0 0 0 0 0 0 0 0 0 4294967296 0 0

/-- Claim C2, counterexample: `delay` computes
`Timestamp(destination - origin) - Timestamp(transmit - receive)` with
wrapping `uint64_t` inner subtraction, which differs from performing each of
the two subtractions via NtpTimestamp: for origin raw `2^32` (one second),
receive = transmit = 0 and destination 0, the code yields `2^32 - 1` seconds
while the claimed formula yields `-1` second. -/
theorem delay_claim_formula_false :
    Packet.delay wrapPacket 0 = 4294967295000000000
    ∧ Timestamp.sub ⟨0⟩ ⟨wrapPacket.originTimestamp⟩
        - Timestamp.sub ⟨wrapPacket.transmitTimestamp⟩ ⟨wrapPacket.receiveTimestamp⟩
      = -1000000000
    ∧ (4294967295000000000 : Int) ≠ -1000000000 := by
  refine ⟨by decide, by decide, by decide⟩

/-- Claim C2, amended: For every packet and destination, `delay(destination)`
equals `Timestamp(destination ⊖ origin) - Timestamp(transmit ⊖ receive)`
where `⊖` is wrapping 64-bit subtraction of the raw timestamps and the outer
subtraction is NtpTimestamp subtraction; and for every exchange with
origin = t₀, receive = t₀ + 0.25 s, transmit = t₀ + 0.50 s and destination
= t₀ + 0.75 s (raw quarter-second fractions, no 64-bit wrap), the delay is
500 ms and the offset is 0. -/
theorem delay_wrapped_diff_and_sanity :
    (∀ (p : Packet) (d : Nat),
      Packet.delay p d
        = Timestamp.sub ⟨usub64 d p.originTimestamp⟩
            ⟨usub64 p.transmitTimestamp p.receiveTimestamp⟩)
    ∧ (∀ (p : Packet) (t0 : Nat), t0 + 3221225472 < 18446744073709551616 →
        p.originTimestamp = t0 →
        p.receiveTimestamp = t0 + 1073741824 →
        p.transmitTimestamp = t0 + 2147483648 →
        Packet.delay p (t0 + 3221225472) = 500000000
        ∧ Packet.offset p (t0 + 3221225472) = 0) := by
  constructor
  · intro p d
    rfl
  · intro p t0 hlt ho hr ht
    have q1 := durationNs_add_quarter t0 1 (by norm_num) (by omega)
    have q2 := durationNs_add_quarter t0 2 (by norm_num) (by omega)
    have q3 := durationNs_add_quarter t0 3 (by norm_num) (by omega)
    norm_num at q1 q2 q3
    constructor
    · show Timestamp.sub ⟨usub64 (t0 + 3221225472) p.originTimestamp⟩
        ⟨usub64 p.transmitTimestamp p.receiveTimestamp⟩ = 500000000
      rw [ho, hr, ht, usub64_of_le _ _ (by omega) (by omega),
        usub64_of_le _ _ (by omega) (by omega)]
      have h1 : t0 + 3221225472 - t0 = 3221225472 := by omega
      have h2 : t0 + 2147483648 - (t0 + 1073741824) = 1073741824 := by omega
      rw [h1, h2]
      decide
    · show (Timestamp.sub ⟨p.receiveTimestamp⟩ ⟨p.originTimestamp⟩
          + Timestamp.sub ⟨p.transmitTimestamp⟩ ⟨t0 + 3221225472⟩).tdiv 2 = 0
      rw [ho, hr, ht]
      show (Timestamp.durationNs ⟨t0 + 1073741824⟩ - Timestamp.durationNs ⟨t0⟩
          + (Timestamp.durationNs ⟨t0 + 2147483648⟩
            - Timestamp.durationNs ⟨t0 + 3221225472⟩)).tdiv 2 = 0
      rw [q1, q2, q3]
      have h0 : Timestamp.durationNs ⟨t0⟩ + 250000000 - Timestamp.durationNs ⟨t0⟩
          + (Timestamp.durationNs ⟨t0⟩ + 500000000
            - (Timestamp.durationNs ⟨t0⟩ + 750000000)) = 0 := by ring
      rw [h0]
      decide

theorem delay_wrapped_diff_and_sanity_witness :
    ((0xE902661000000000 : Nat) + 3221225472 < 18446744073709551616)
    ∧ (Packet.ofFields 0 0 0 0 0 0 0 0 0 0 0xE902661000000000 0xE902661040000000
        0xE902661080000000).originTimestamp = 0xE902661000000000
    ∧ Packet.delay (Packet.ofFields 0 0 0 0 0 0 0 0 0 0 0xE902661000000000
        0xE902661040000000 0xE902661080000000) (0xE902661000000000 + 3221225472)
      = 500000000
    ∧ Packet.offset (Packet.ofFields 0 0 0 0 0 0 0 0 0 0 0xE902661000000000
        0xE902661040000000 0xE902661080000000) (0xE902661000000000 + 3221225472)
      = 0 := by
  refine ⟨by norm_num, by decide, ?_, ?_⟩
  · exact (delay_wrapped_diff_and_sanity.2
      (Packet.ofFields 0 0 0 0 0 0 0 0 0 0 0xE902661000000000 0xE902661040000000
        0xE902661080000000)
      0xE902661000000000 (by norm_num) (by decide) (by decide) (by decide)).1
  · exact (delay_wrapped_diff_and_sanity.2
      (Packet.ofFields 0 0 0 0 0 0 0 0 0 0 0xE902661000000000 0xE902661040000000
        0xE902661080000000)
      0xE902661000000000 (by norm_num) (by decide) (by decide) (by decide)).2

/-- Claim C3, counterexample: At transport error 0, received size 48, and the
timer-expiry sentinel "min" (timed out), the receive handler reports success
with the received packet — not `timed_out` with a null packet as claimed:
the timeout sentinel is only consulted inside the
`error || size != 48 || expiry == max` branch. -/
theorem receiveOutcome_min_ok_false :
    QuerySingle.receiveOutcome 0 48 Expiry.min (List.replicate 48 (1 : Byte))
      = (0, Packet.ofData (List.replicate 48 (1 : Byte)))
    ∧ QuerySingle.receiveOutcome 0 48 Expiry.min (List.replicate 48 (1 : Byte))
      ≠ (timedOut, Packet.null) := by
  refine ⟨by decide, by decide⟩

/-- Claim C3, amended: The receive-completion outcome, as a pure function of
the transport error `e`, received byte count `s`, and timer sentinel `x`:
`aborted` with a null packet when `x = max`; `timed_out` with a null packet
when `x = min` and additionally `e ≠ 0` or `s ≠ 48`; the error `e` (or
`message_size` when `e = 0` and `s ≠ 48`) with a null packet on an ordinary
expiry; and `ok` with `Packet(buffer)` whenever `e = 0`, `s = 48` and
`x ≠ max` — including when `x = min`. -/
theorem receiveOutcome_cases :
    ∀ (e s : Nat) (x : Expiry) (b : List Byte),
      (x = Expiry.max →
        QuerySingle.receiveOutcome e s x b = (operationAborted, Packet.null))
      ∧ (x = Expiry.min → (e ≠ 0 ∨ s ≠ 48) →
        QuerySingle.receiveOutcome e s x b = (timedOut, Packet.null))
      ∧ (x = Expiry.normal → e ≠ 0 →
        QuerySingle.receiveOutcome e s x b = (e, Packet.null))
      ∧ (x = Expiry.normal → e = 0 → s ≠ 48 →
        QuerySingle.receiveOutcome e s x b = (messageSize, Packet.null))
      ∧ (x ≠ Expiry.max → e = 0 → s = 48 →
        QuerySingle.receiveOutcome e s x b = (0, Packet.ofData b)) := by
  intro e s x b
  refine ⟨fun hx => ?_, fun hx h => ?_, fun hx he => ?_, fun hx he hs => ?_,
    fun hx he hs => ?_⟩ <;>
    simp_all [QuerySingle.receiveOutcome]

theorem receiveOutcome_cases_witness :
    QuerySingle.receiveOutcome 0 48 Expiry.max [] = (operationAborted, Packet.null)
    ∧ QuerySingle.receiveOutcome 0 47 Expiry.min [] = (timedOut, Packet.null)
    ∧ QuerySingle.receiveOutcome 7 48 Expiry.normal [] = (7, Packet.null)
    ∧ QuerySingle.receiveOutcome 0 47 Expiry.normal [] = (messageSize, Packet.null)
    ∧ QuerySingle.receiveOutcome 0 48 Expiry.min [] = (0, Packet.ofData []) :=
  ⟨(receiveOutcome_cases 0 48 Expiry.max []).1 rfl,
   (receiveOutcome_cases 0 47 Expiry.min []).2.1 rfl (Or.inr (by norm_num)),
   (receiveOutcome_cases 7 48 Expiry.normal []).2.2.1 rfl (by norm_num),
   (receiveOutcome_cases 0 47 Expiry.normal []).2.2.2.1 rfl rfl (by norm_num),
   (receiveOutcome_cases 0 48 Expiry.min []).2.2.2.2 (by decide) rfl rfl⟩

/-- Claim C4, counterexample: With the duplicate endpoint list `[0, 1, 0, 2]`,
the completion of the query for endpoint index 2 (value 0) with a plain
error starts a query for endpoint index 1 (value 1) — the index is recovered
as the *first* occurrence of the endpoint value — not for index 3 (value 2)
as the claim requires. -/
theorem forwarderStep_duplicate_false :
    QuerySeries.forwarderStep ([0, 1, 0, 2] : List Nat) Expiry.normal
        (([0, 1, 0, 2] : List Nat).get ⟨2, by norm_num⟩) 5
      = QuerySeries.ForwarderAction.next 1
    ∧ QuerySeries.ForwarderAction.next (1 : Nat) ≠ QuerySeries.ForwarderAction.next 2 := by
  refine ⟨by decide, by decide⟩

/-- Claim C4, amended: When the endpoints are pairwise distinct and the
query for endpoint `i` completes with a non-zero, non-cancellation error
with `i < n - 1`, the forwarder starts a new query targeting exactly
endpoint `i + 1` (and does not invoke the caller's callback); in every other
case it cancels the series timer and invokes the caller's callback exactly
once, with the error overridden by the timer sentinel. On duplicate lists
the fail-over resumes after the *first* occurrence of the completing
endpoint's value. -/
theorem forwarderStep_order :
    (∀ (E : Type) (inst : DecidableEq E) (eps : List E) (expiry : Expiry)
      (i : Nat) (err : Nat), eps.Nodup → ∀ (hi : i + 1 < eps.length),
      err ≠ 0 → err ≠ operationAborted →
      QuerySeries.forwarderStep eps expiry (eps.get ⟨i, by omega⟩) err
        = QuerySeries.ForwarderAction.next (eps.get ⟨i + 1, hi⟩))
    ∧ (∀ (E : Type) (inst : DecidableEq E) (eps : List E) (expiry : Expiry)
      (e : E) (err : Nat),
      ¬(err ≠ 0 ∧ err ≠ operationAborted ∧ QuerySeries.index eps e < eps.length - 1) →
      QuerySeries.forwarderStep eps expiry e err
        = QuerySeries.ForwarderAction.finish
            (if expiry = Expiry.max then operationAborted
             else if expiry = Expiry.min then timedOut
             else err)) := by
  constructor
  · intro E inst eps expiry i err hn hi he ha
    unfold QuerySeries.forwarderStep
    have hidx : QuerySeries.index eps (eps.get ⟨i, by omega⟩) = i := by
      show List.indexOf _ _ = i
      simpa using List.indexOf_getElem hn i (by omega)
    rw [hidx, if_pos ⟨he, ha, by omega⟩]
    congr 1
    rw [List.getD_eq_getElem _ _ hi]
    simp
  · intro E inst eps expiry e err h
    unfold QuerySeries.forwarderStep
    rw [if_neg h]

theorem forwarderStep_order_witness :
    ([10, 20] : List Nat).Nodup
    ∧ QuerySeries.forwarderStep ([10, 20] : List Nat) Expiry.normal 10 5
      = QuerySeries.ForwarderAction.next 20
    ∧ QuerySeries.forwarderStep ([10, 20] : List Nat) Expiry.min 20 5
      = QuerySeries.ForwarderAction.finish timedOut :=
  ⟨by decide,
   forwarderStep_order.1 Nat inferInstance [10, 20] Expiry.normal 0 5 (by decide)
     (by norm_num) (by norm_num) (by decide),
   forwarderStep_order.2 Nat inferInstance [10, 20] Expiry.min 20 5 (by decide)⟩

/-- Claim C5, counterexample: The series-completion translation inside
`Query::start` maps the `aborted` error with a null packet to
`ReceiveError`, not `Cancelled`: it has no special case for `aborted`
(`Cancelled` is produced by the separate `cancel()` path through the
finalization gate). -/
theorem seriesStatus_aborted_false :
    Query.seriesStatus operationAborted Packet.null = Query.Status.ReceiveError
    ∧ Query.Status.ReceiveError ≠ Query.Status.Cancelled := by
  refine ⟨by decide, by decide⟩

/-- Claim C5, amended: The translation of a SeriesQuery completion `(e, p)`
inside `Query::start` is total and maps every outcome to exactly one status:
`SendError` iff `e ≠ 0` and `p` is non-null, `ReceiveError` iff `e ≠ 0` and
`p` is null, and `Succeeded` iff `e = 0`; no completion maps to `Cancelled`
(that status comes from the `cancel()` path, not from this translation). -/
theorem seriesStatus_total :
    ∀ (e : Nat) (p : Packet),
      (Query.seriesStatus e p = Query.Status.SendError ↔ e ≠ 0 ∧ p.isNull = false)
      ∧ (Query.seriesStatus e p = Query.Status.ReceiveError ↔ e ≠ 0 ∧ p.isNull = true)
      ∧ (Query.seriesStatus e p = Query.Status.Succeeded ↔ e = 0)
      ∧ Query.seriesStatus e p ≠ Query.Status.Cancelled := by
  intro e p
  unfold Query.seriesStatus
  by_cases he : e = 0 <;> by_cases hp : p.isNull = true <;>
    simp_all [he, hp]

/-- Claim C8: For every valid `DateTime`, `toBrokenStdTime()` leaves
`tm_year` holding the day of month (the year, month and day stores all
target `tm_year`, so the last one wins), `tm_mon` and `tm_mday` at zero,
and fills `tm_hour`, `tm_min`, `tm_sec` with `hour()`, `minute()`,
`second()`. -/
theorem toBrokenStdTime_fields (dt : DateTime) (h : dt.isValid = true) :
    dt.toBrokenStdTime.tm_year = dt.day
    ∧ dt.toBrokenStdTime.tm_mon = 0
    ∧ dt.toBrokenStdTime.tm_mday = 0
    ∧ dt.toBrokenStdTime.tm_hour = dt.hour
    ∧ dt.toBrokenStdTime.tm_min = dt.minute
    ∧ dt.toBrokenStdTime.tm_sec = dt.second :=
  ⟨rfl, rfl, rfl, rfl, rfl, rfl⟩

theorem toBrokenStdTime_fields_witness :
    (DateTime.mk ⟨2017, 12, 15⟩ ⟨81295000000000⟩).isValid = true
    ∧ (DateTime.mk ⟨2017, 12, 15⟩ ⟨81295000000000⟩).toBrokenStdTime.tm_year = 15
    ∧ (DateTime.mk ⟨2017, 12, 15⟩ ⟨81295000000000⟩).toBrokenStdTime.tm_mon = 0
    ∧ (DateTime.mk ⟨2017, 12, 15⟩ ⟨81295000000000⟩).toBrokenStdTime.tm_mday = 0
    ∧ (DateTime.mk ⟨2017, 12, 15⟩ ⟨81295000000000⟩).toBrokenStdTime.tm_hour = 22
    ∧ (DateTime.mk ⟨2017, 12, 15⟩ ⟨81295000000000⟩).toBrokenStdTime.tm_min = 34
    ∧ (DateTime.mk ⟨2017, 12, 15⟩ ⟨81295000000000⟩).toBrokenStdTime.tm_sec = 55 := by
  have h := toBrokenStdTime_fields (DateTime.mk ⟨2017, 12, 15⟩ ⟨81295000000000⟩) (by decide)
  exact ⟨by decide, h.1.trans (by decide), h.2.1, h.2.2.1,
    h.2.2.2.1.trans (by decide), h.2.2.2.2.1.trans (by decide),
    h.2.2.2.2.2.trans (by decide)⟩

/-- Claim C9: For every `DateTime` and month count, `addMonths` returns the
same result as `subtractMonths` — both construct
`DateTime(m_date.subtractMonths(months), m_time)` — so `addMonths` moves
the date backwards: adding one month to 2000-05-15 yields 2000-04-15. -/
theorem addMonths_eq_subtractMonths :
    (∀ (dt : DateTime) (m : Int), dt.addMonths m = dt.subtractMonths m)
    ∧ (∀ (dt : DateTime) (m : Int),
        (dt.addMonths m).m_date = dt.m_date.subtractMonths m)
    ∧ (DateTime.mk ⟨2000, 5, 15⟩ ⟨0⟩).addMonths 1 = DateTime.mk ⟨2000, 4, 15⟩ ⟨0⟩ :=
  ⟨fun dt m => rfl, fun dt m => rfl, by decide⟩

end ntp

end Xclox
